import Mathlib

/-!
Shallow embedding of the EESSI cvmfs-server-scraper library (Rust) in Lean 4.

Each definition mirrors one item of the Rust source (src/errors.rs,
src/utilities.rs, src/models/generic.rs, src/models/cvmfs_published.rs,
src/models/geoapi.rs, src/models/servers.rs).  Network I/O is made explicit
through a `ScrapeEnv` record holding the outcome every fetch would produce;
Rust panics are modelled by the `RustOutcome.panicked` / `Option.none`
constructors of the result types.
-/

deriving instance DecidableEq for Except

namespace CvmfsScraper

/-- Outcome of evaluating a Rust expression that may panic, fail with an
error value, or succeed. -/
inductive RustOutcome (ε α : Type) where
  | panicked : RustOutcome ε α
  | error : ε → RustOutcome ε α
  | ok : α → RustOutcome ε α
deriving DecidableEq

/-- errors.rs: `ManifestError`.  The `reqwest::Error` payload of `FetchError`
is abstracted to its display string. -/
inductive ManifestError where
  | FetchError : String → ManifestError
  | MissingField : Char → ManifestError
  | ParseError : Char → String → ManifestError
  | InvalidHex : String → ManifestError
  | InvalidCertificate : String → ManifestError
deriving DecidableEq

/-- errors.rs: `HostnameError`. -/
inductive HostnameError where
  | TooLong : String → HostnameError
  | LabelTooLong : String → HostnameError
  | InvalidChar : String → HostnameError
  | InvalidLabelFormat : String → HostnameError
  | ConsecutiveDashes : String → HostnameError
deriving DecidableEq

/-- errors.rs: `ScrapeError`.  The `reqwest::Error` / `serde_json::Error` /
`chrono::ParseError` payloads are abstracted to display strings. -/
inductive ScrapeError where
  | FetchError : String → ScrapeError
  | ParseError : String → ScrapeError
  | InvalidJson : String → ScrapeError
  | EmptyRepositoryList : String → ScrapeError
  | ServerTypeMismatch : String → ScrapeError
  | ChronoParseError : String → ScrapeError
  | ConversionError : String → ScrapeError
  | GeoAPIFailure : String → ScrapeError
deriving DecidableEq

/-- errors.rs: `GenericError`. -/
inductive GenericError where
  | TypeError : String → GenericError
deriving DecidableEq

/-- errors.rs: `CVMFSScraperError`. -/
inductive CVMFSScraperError where
  | ScrapeError : ScrapeError → CVMFSScraperError
  | ManifestError : ManifestError → CVMFSScraperError
  | HostnameError : HostnameError → CVMFSScraperError
  | GenericError : GenericError → CVMFSScraperError
deriving DecidableEq

/-- generic.rs: `Hostname(pub String)`. -/
structure Hostname where
  str : String
deriving DecidableEq

/-- generic.rs: `MaybeRfc2822DateTime(pub Option<String>)`. -/
structure MaybeRfc2822DateTime where
  val : Option String
deriving DecidableEq

/-- generic.rs: `HexString(String)`; built only through `HexString.new`. -/
structure HexString where
  str : String
deriving DecidableEq

/-- Number of bytes of the UTF-8 encoding of `c`; mirrors what Rust
`str::len` counts per character. -/
def charUtf8Size (c : Char) : Nat :=
  if c.val ≤ 0x7F then 1
  else if c.val ≤ 0x7FF then 2
  else if c.val ≤ 0xFFFF then 3
  else 4

/-- UTF-8 byte length of a string, i.e. Rust `str::len`. -/
def byteLen (s : String) : Nat :=
  (s.data.map charUtf8Size).sum

/-- Rust `char::is_ascii_hexdigit`. -/
def isAsciiHexDigit (c : Char) : Bool :=
  c.isDigit || ('a' ≤ c && c ≤ 'f') || ('A' ≤ c && c ≤ 'F')

/-- generic.rs: `HexString::new`.  The check is
`s.len() % 2 == 0 && s.chars().all(|c| c.is_ascii_hexdigit())`, where
`s.len()` is the byte length; the stored value is `s.to_lowercase()`
(on all-ASCII input this is a per-character ASCII lowercase map). -/
def HexString.new (s : String) : Except ManifestError HexString :=
  if byteLen s % 2 = 0 && s.data.all isAsciiHexDigit then
    .ok ⟨s.map Char.toLower⟩
  else
    .error (.InvalidHex s)

/-- The field map built by `Manifest::from_str`: Rust
`HashMap<char, String>` restricted to the operations used (get / insert). -/
def DataMap := Char → Option String

/-- Rust `HashMap::insert`. -/
def dmInsert (dm : DataMap) (k : Char) (v : String) : DataMap :=
  fun c => if c = k then some v else dm c

/-- The empty `HashMap`. -/
def dmEmpty : DataMap := fun _ => none

/-- utilities.rs: `parse_hex_field` (`HexString::from_str` is
`HexString::new`). -/
def parse_hex_field (data : DataMap) (key : Char) : Except ManifestError HexString :=
  match data key with
  | none => .error (.MissingField key)
  | some v => HexString.new v

/-- utilities.rs: `parse_boolean_field`: true iff the value lowercases to
"yes"; a missing key is an error. -/
def parse_boolean_field (data : DataMap) (key : Char) : Except ManifestError Bool :=
  match data key with
  | none => .error (.MissingField key)
  | some v => .ok (v.map Char.toLower == "yes")

/-- Value of an ASCII decimal digit. -/
def digitVal (c : Char) : Option Nat :=
  if c.isDigit then some (c.toNat - '0'.toNat) else none

/-- Accumulate decimal digits; `none` on any non-digit. -/
def parseDigitsAux : List Char → Nat → Option Nat
  | [], acc => some acc
  | c :: cs, acc =>
    match digitVal c with
    | some d => parseDigitsAux cs (acc * 10 + d)
    | none => none

/-- Nonempty all-digit string to its value; `none` otherwise. -/
def parseDigits : List Char → Option Nat
  | [] => none
  | l => parseDigitsAux l 0

/-- Rust `FromStr` for a signed integer type with range `[lo, hi]`:
an optional sign followed by one or more ASCII digits; out-of-range
(overflow) input is an error, modelled as `none`. -/
def rustParseInt (lo hi : Int) (s : String) : Option Int :=
  let core : Option Int :=
    match s.data with
    | '+' :: rest => (parseDigits rest).map Int.ofNat
    | '-' :: rest => (parseDigits rest).map (fun n => -(Int.ofNat n))
    | l => (parseDigits l).map Int.ofNat
  core.bind fun v => if lo ≤ v ∧ v ≤ hi then some v else none

def i64Min : Int := -(2 ^ 63)
def i64Max : Int := 2 ^ 63 - 1
def i32Min : Int := -(2 ^ 31)
def i32Max : Int := 2 ^ 31 - 1

/-- utilities.rs: `parse_number_field::<T>` at a signed integer type with
range `[lo, hi]`; the `ParseIntError` display string is abstracted. -/
def parse_number_field (lo hi : Int) (data : DataMap) (key : Char) :
    Except ManifestError Int :=
  match data key with
  | none => .error (.MissingField key)
  | some v =>
    match rustParseInt lo hi v with
    | some n => .ok n
    | none => .error (.ParseError key "invalid integer")

/-- cvmfs_published.rs: `Manifest`.  `b`, `t` carry i64 values and `d`, `s`
carry i32 values, enforced at parse time. -/
structure Manifest where
  c : HexString
  b : Int
  a : Bool
  r : HexString
  x : HexString
  g : Bool
  h : HexString
  t : Int
  d : Int
  s : Int
  n : String
  m : HexString
  y : HexString
  l : String
  signature : String
deriving DecidableEq

/-- Drop one trailing carriage return, as Rust `str::lines` does for a
line terminated by CR LF. -/
def stripTrailingCr (l : List Char) : List Char :=
  if l.getLast? = some '\x0D' then l.dropLast else l

/-- Worker for `rustLines`: split at LF, strip a CR before each LF, keep a
final unterminated piece as-is, and drop a final empty piece. -/
def rustLinesAux : List Char → List Char → List (List Char)
  | [], acc => if acc.isEmpty then [] else [acc.reverse]
  | '\n' :: rest, acc => stripTrailingCr acc.reverse :: rustLinesAux rest []
  | ch :: rest, acc => rustLinesAux rest (ch :: acc)

/-- Rust `str::lines`. -/
def rustLines (s : String) : List (List Char) :=
  rustLinesAux s.data []

/-- The accumulation loop of `Manifest::from_str` over the lines, carrying
`(data, signature, is_signature)`.  `none` models a panic: the source calls
`line.chars().next().unwrap()` (panics on an empty line) and slices
`&line[1..]` (panics when byte offset 1 is not a character boundary, i.e.
when the first character is multi-byte). -/
def manifestLoop : List (List Char) → DataMap × String × Bool →
    Option (DataMap × String × Bool)
  | [], st => some st
  | line :: rest, (dm, sig, isSig) =>
    if line = ['-', '-'] then
      manifestLoop rest (dm, sig, true)
    else if isSig then
      manifestLoop rest (dm, sig ++ String.mk line, isSig)
    else
      match line with
      | [] => none
      | k :: v =>
        if charUtf8Size k = 1 then
          manifestLoop rest (dmInsert dm k (String.mk v), sig, isSig)
        else
          none

/-- The field-decoding tail of `Manifest::from_str`, in source order. -/
def buildManifest (dm : DataMap) (sig : String) : Except ManifestError Manifest := do
  let c ← parse_hex_field dm 'C'
  let b ← parse_number_field i64Min i64Max dm 'B'
  let a ← parse_boolean_field dm 'A'
  let r ← parse_hex_field dm 'R'
  let x ← parse_hex_field dm 'X'
  let g ← parse_boolean_field dm 'G'
  let h ← parse_hex_field dm 'H'
  let t ← parse_number_field i64Min i64Max dm 'T'
  let d ← parse_number_field i32Min i32Max dm 'D'
  let s ← parse_number_field i32Min i32Max dm 'S'
  let n ← match dm 'N' with
    | some v => Except.ok v
    | none => Except.error (ManifestError.MissingField 'N')
  let m ← parse_hex_field dm 'M'
  let y ← parse_hex_field dm 'Y'
  let l := (dm 'L').getD ""
  return ⟨c, b, a, r, x, g, h, t, d, s, n, m, y, l, sig⟩

/-- cvmfs_published.rs: `Manifest::from_str` (`impl FromStr for Manifest`). -/
def Manifest.from_str (content : String) : RustOutcome ManifestError Manifest :=
  match manifestLoop (rustLines content) (dmEmpty, "", false) with
  | none => .panicked
  | some (dm, sig, _) =>
    match buildManifest dm sig with
    | .ok mf => .ok mf
    | .error e => .error e

/-- The lines of `content` that the `Manifest::from_str` loop visits before
the first `--` separator line. -/
def preSignatureLines (content : String) : List (List Char) :=
  (rustLines content).takeWhile (fun l => decide (l ≠ ['-', '-']))

/-! ### geoapi.rs -/

/-- geoapi.rs: `GeoapiServerQuery`.  `response` is a `Vec<u32>`; its
elements are modelled as natural numbers. -/
structure GeoapiServerQuery where
  hostname : Hostname
  geoapi_hosts : List Hostname
  response : List Nat
deriving DecidableEq

/-- Index a hostname list as Rust `self.geoapi_hosts[*x as usize]` does for
each element of `order`; `none` models the out-of-bounds panic. -/
def hostnameIndexMap (hosts : List Hostname) : List Nat → Option (List Hostname)
  | [] => some []
  | i :: rest =>
    match hosts.get? i with
    | none => none
    | some h =>
      match hostnameIndexMap hosts rest with
      | none => none
      | some hs => some (h :: hs)

/-- geoapi.rs: `GeoapiServerQuery::map_order_to_geoapi_hostname`. -/
def GeoapiServerQuery.map_order_to_geoapi_hostname (q : GeoapiServerQuery)
    (order : List Nat) : Option (List Hostname) :=
  hostnameIndexMap q.geoapi_hosts order

/-- geoapi.rs: `GeoapiServerQuery::map_response_order_to_geoapi_hostnames`.
The length guard runs before any indexing; an out-of-bounds index inside
`map_order_to_geoapi_hostname` is a panic, not an error. -/
def GeoapiServerQuery.map_response_order_to_geoapi_hostnames
    (q : GeoapiServerQuery) : RustOutcome ScrapeError (List Hostname) :=
  if q.response.length ≠ q.geoapi_hosts.length then
    .error (.GeoAPIFailure ("GeoAPI response count mismatch for repository " ++
      q.hostname.str ++ ": expected " ++ toString q.geoapi_hosts.length ++
      ", got " ++ toString q.response.length))
  else
    match q.map_order_to_geoapi_hostname q.response with
    | none => .panicked
    | some hs => .ok hs

/-- geoapi.rs: `GeoapiServerQuery::check_against_expected_order_by_hostname`. -/
def GeoapiServerQuery.check_against_expected_order_by_hostname
    (q : GeoapiServerQuery) (expected_order : List Hostname) :
    RustOutcome ScrapeError Bool :=
  let geoapi_hosts_not_checked :=
    q.geoapi_hosts.filter (fun x => decide (x ∉ expected_order))
  let target_hosts_not_in_geoapi_response :=
    expected_order.filter (fun x => decide (x ∉ q.geoapi_hosts))
  if geoapi_hosts_not_checked ≠ [] ∨ target_hosts_not_in_geoapi_response ≠ [] then
    .ok false
  else
    match q.map_response_order_to_geoapi_hostnames with
    | .panicked => .panicked
    | .error e => .error e
    | .ok response_order => .ok (decide (response_order = expected_order))

/-! ### servers.rs -/

/-- servers.rs: `ServerType`. -/
inductive ServerType where
  | Stratum0
  | Stratum1
  | SyncServer
deriving DecidableEq

/-- servers.rs: `ServerBackendType`. -/
inductive ServerBackendType where
  | S3
  | CVMFS
  | AutoDetect
deriving DecidableEq

/-- servers.rs: `Server`. -/
structure Server where
  server_type : ServerType
  backend_type : ServerBackendType
  hostname : Hostname
deriving DecidableEq

/-- cvmfs_status_json.rs: `StatusJSON`. -/
structure StatusJSON where
  last_snapshot : MaybeRfc2822DateTime
  last_gc : MaybeRfc2822DateTime
deriving DecidableEq

/-- repositories_json.rs: `RepositoriesJSONRepo`. -/
structure RepositoriesJSONRepo where
  name : String
  url : String
deriving DecidableEq

/-- repositories_json.rs: `RepositoriesJSON` (`schema` is a `u32`). -/
structure RepositoriesJSON where
  schema : Nat
  last_geodb_update : MaybeRfc2822DateTime
  cvmfs_version : Option String
  os_id : Option String
  os_version_id : Option String
  os_pretty_name : Option String
  repositories : List RepositoriesJSONRepo
  replicas : List RepositoriesJSONRepo
deriving DecidableEq

/-- repositories_json.rs: `RepositoriesJSON::repositories_and_replicas`. -/
def RepositoriesJSON.repositories_and_replicas (j : RepositoriesJSON) :
    List RepositoriesJSONRepo :=
  j.repositories ++ j.replicas

/-- The external `semver::Version` value type (crate `semver`), carried
opaquely by this code. -/
structure SemverVersion where
  major : Nat
  minor : Nat
  patch : Nat
  pre : String
  build : String
deriving DecidableEq

/-- A `serde_json::Value`, carried opaquely by this code (never inspected). -/
structure JsonValue where
  raw : String
deriving DecidableEq

/-- meta_json.rs: `MetaJSON`. -/
structure MetaJSON where
  administrator : String
  email : String
  organisation : String
  custom : JsonValue
deriving DecidableEq

/-- servers.rs: `MetadataFromRepoJSON` (`schema_version` is a `u32`). -/
structure MetadataFromRepoJSON where
  schema_version : Option Nat
  cvmfs_version : Option SemverVersion
  last_geodb_update : MaybeRfc2822DateTime
  os_version_id : Option String
  os_pretty_name : Option String
  os_id : Option String
deriving DecidableEq

/-- servers.rs: `ServerMetadata`. -/
structure ServerMetadata where
  schema_version : Option Nat
  cvmfs_version : Option SemverVersion
  last_geodb_update : MaybeRfc2822DateTime
  os_version_id : Option String
  os_pretty_name : Option String
  os_id : Option String
  administrator : Option String
  email : Option String
  organisation : Option String
  custom : Option JsonValue
deriving DecidableEq

/-- servers.rs: `PopulatedRepositoryOrReplica`. -/
structure PopulatedRepositoryOrReplica where
  name : String
  manifest : Manifest
  last_snapshot : Option MaybeRfc2822DateTime
  last_gc : Option MaybeRfc2822DateTime
deriving DecidableEq

/-- servers.rs: `PopulatedServer`. -/
structure PopulatedServer where
  server_type : ServerType
  backend_type : ServerBackendType
  backend_detected : ServerBackendType
  hostname : Hostname
  repositories : List PopulatedRepositoryOrReplica
  metadata : ServerMetadata
  geoapi : GeoapiServerQuery
deriving DecidableEq

/-- servers.rs: `FailedServer`. -/
structure FailedServer where
  hostname : Hostname
  server_type : ServerType
  backend_type : ServerBackendType
  error : CVMFSScraperError
deriving DecidableEq

/-- servers.rs: `ScrapedServer`. -/
inductive ScrapedServer where
  | Populated : PopulatedServer → ScrapedServer
  | Failed : FailedServer → ScrapedServer
deriving DecidableEq

/-- servers.rs: `Server::to_failed_server`. -/
def Server.to_failed_server (srv : Server) (error : CVMFSScraperError) :
    FailedServer :=
  ⟨srv.hostname, srv.server_type, srv.backend_type, error⟩

/-- The ambient world a scrape runs in: the value every fetch of this
server would yield, keyed by repository name where the URL is
repository-scoped, plus the behavior of the external `semver` parser.
`Except` errors are the fetch/parse failures the corresponding Rust call
can produce; the scrape itself never performs other I/O. -/
structure ScrapeEnv where
  reposJson : Except ScrapeError RepositoriesJSON
  metaJson : Except ScrapeError MetaJSON
  statusJson : String → Except ScrapeError StatusJSON
  manifest : String → Except ManifestError Manifest
  geoapiText : String → Except ScrapeError String
  semverParse : String → Except String SemverVersion

/-- servers.rs: `MetadataFromRepoJSON::try_from::<RepositoriesJSON>`; the
`semver::Version` parse is taken from the environment and its error display
string becomes a `ConversionError`. -/
def MetadataFromRepoJSON.try_from (env : ScrapeEnv) (repo_json : RepositoriesJSON) :
    Except ScrapeError MetadataFromRepoJSON :=
  match repo_json.cvmfs_version with
  | none =>
    .ok ⟨some repo_json.schema, none, repo_json.last_geodb_update,
      repo_json.os_version_id, repo_json.os_pretty_name, repo_json.os_id⟩
  | some v =>
    match env.semverParse v with
    | .error e => .error (.ConversionError e)
    | .ok ver =>
      .ok ⟨some repo_json.schema, some ver, repo_json.last_geodb_update,
        repo_json.os_version_id, repo_json.os_pretty_name, repo_json.os_id⟩

/-- servers.rs: `Server::validate_repo_json_and_server_type`. -/
def Server.validate_repo_json_and_server_type (srv : Server)
    (repo_json : RepositoriesJSON) : Except CVMFSScraperError Unit :=
  match srv.server_type, repo_json.replicas.isEmpty with
  | .Stratum0, false =>
    .error (.ScrapeError (.ServerTypeMismatch (srv.hostname.str ++
      " is a Stratum0 server, but replicas were found in the repositories.json")))
  | .Stratum1, true =>
    .error (.ScrapeError (.ServerTypeMismatch (srv.hostname.str ++
      " is a Stratum1 server, but no replicas were found in the repositories.json")))
  | .SyncServer, true =>
    .error (.ScrapeError (.ServerTypeMismatch (srv.hostname.str ++
      " is a SyncServer, but no replicas were found in the repositories.json")))
  | _, _ => .ok ()

/-- servers.rs: `ServerMetadata::merge_repo_metadata` (applied functionally). -/
def ServerMetadata.merge_repo_metadata (sm : ServerMetadata)
    (repo_meta : MetadataFromRepoJSON) : ServerMetadata :=
  { sm with
    schema_version := repo_meta.schema_version
    cvmfs_version := repo_meta.cvmfs_version
    last_geodb_update := repo_meta.last_geodb_update
    os_version_id := repo_meta.os_version_id
    os_pretty_name := repo_meta.os_pretty_name
    os_id := repo_meta.os_id }

/-- servers.rs: `impl From<MetaJSON> for ServerMetadata`. -/
def ServerMetadata.fromMeta (meta : MetaJSON) : ServerMetadata :=
  ⟨none, none, ⟨none⟩, none, none, none,
    some meta.administrator, some meta.email, some meta.organisation,
    some meta.custom⟩

/-- servers.rs: `Server::merge_metadata`. -/
def Server.merge_metadata (_srv : Server) (repo_meta : MetadataFromRepoJSON)
    (meta_json : Option MetaJSON) : ServerMetadata :=
  let server_metadata :=
    match meta_json with
    | some meta => ServerMetadata.fromMeta meta
    | none => ⟨none, none, ⟨none⟩, none, none, none, none, none, none, none⟩
  server_metadata.merge_repo_metadata repo_meta

/-- servers.rs: `RepositoryOrReplica`. -/
structure RepositoryOrReplica where
  server : Server
  name : String

/-- servers.rs: `RepositoryOrReplica::scrape`: the status record is fetched
first, then the manifest; either failure fails the repository. -/
def RepositoryOrReplica.scrape (repo : RepositoryOrReplica) (env : ScrapeEnv) :
    Except CVMFSScraperError PopulatedRepositoryOrReplica :=
  match env.statusJson repo.name with
  | .error e => .error (.ScrapeError e)
  | .ok repo_status =>
    match env.manifest repo.name with
    | .error e => .error (.ManifestError e)
    | .ok mf =>
      .ok ⟨repo.name, mf, some repo_status.last_snapshot, some repo_status.last_gc⟩

/-- constants.rs: `DEFAULT_GEOAPI_SERVERS`. -/
def DEFAULT_GEOAPI_SERVERS : List Hostname :=
  [⟨"cvmfs-s1fnal.opensciencegrid.org"⟩,
   ⟨"cvmfs-stratum-one.cern.ch"⟩,
   ⟨"cvmfs-stratum-one.ihep.ac.cn"⟩]

/-- Ordered insertion without duplicates: one `BTreeSet<String>::insert`. -/
def btreeInsert (x : String) : List String → List String
  | [] => [x]
  | y :: ys =>
    if x < y then x :: y :: ys
    else if x = y then y :: ys
    else y :: btreeInsert x ys

/-- Rust `BTreeSet::extend`: insert every element of `l`. -/
def btreeExtend (s : List String) (l : List String) : List String :=
  l.foldl (fun acc x => btreeInsert x acc) s

/-- Rust `collect::<BTreeSet<String>>()`: the sorted, de-duplicated set of `l`,
as the ordered list the set iterates in. -/
def btreeFromList (l : List String) : List String :=
  btreeExtend [] l

/-- Rust u32 `FromStr`: optional leading plus sign, one or more ASCII
digits, value below 2^32. -/
def parseU32 (s : String) : Option Nat :=
  let core : Option Nat :=
    match s.data with
    | '+' :: rest => parseDigits rest
    | l => parseDigits l
  core.bind fun n => if n < 2 ^ 32 then some n else none

/-- servers.rs: the response-parsing step of `Server::fetch_geoapi`:
trim, split on commas, parse every piece as a u32; any piece failing to
parse is a `GeoAPIFailure` (its `ParseIntError` display is abstracted). -/
def parseGeoapiResponse : List (List Char) → Except ScrapeError (List Nat)
  | [] => .ok []
  | piece :: rest =>
    match parseU32 (String.mk piece) with
    | none => .error (.GeoAPIFailure "invalid digit found in string")
    | some n =>
      match parseGeoapiResponse rest with
      | .error e => .error e
      | .ok ns => .ok (n :: ns)

/-- Rust `str::split(',')`. -/
def splitCommaAux : List Char → List Char → List (List Char)
  | [], acc => [acc.reverse]
  | ',' :: rest, acc => acc.reverse :: splitCommaAux rest []
  | ch :: rest, acc => splitCommaAux rest (ch :: acc)

/-- Rust `str::split(',')` over a string. -/
def splitComma (s : String) : List (List Char) :=
  splitCommaAux s.data []

/-- servers.rs: `Server::fetch_geoapi`.  An S3 backend skips the fetch and
returns an empty query; otherwise a transport failure or a non-integer
token is a `GeoAPIFailure` (the random cache-busting token in the URL is
irrelevant to the result and omitted). -/
def Server.fetch_geoapi (srv : Server) (env : ScrapeEnv)
    (repository_name : String) (backend_type : ServerBackendType)
    (geoapi_hosts : List Hostname) : Except ScrapeError GeoapiServerQuery :=
  if backend_type = .S3 then
    .ok ⟨srv.hostname, geoapi_hosts, []⟩
  else
    match env.geoapiText repository_name with
    | .error _ =>
      .error (.GeoAPIFailure ("Failed to fetch geoapi for " ++ srv.hostname.str))
    | .ok response =>
      match parseGeoapiResponse (splitComma response.trim) with
      | .error e => .error e
      | .ok ns => .ok ⟨srv.hostname, geoapi_hosts, ns⟩

/-- The names contributed by a fetched repositories.json: every advertised
repository or replica not in the ignore set, merged into the set
(servers.rs, the `all_repos.extend(...)` block, identical in the
`AutoDetect` and `CVMFS` arms). -/
def extendWithJson (all_repos : List String) (ignore : List String)
    (repo_json : RepositoriesJSON) : List String :=
  btreeExtend all_repos
    ((repo_json.repositories_and_replicas.filter
      (fun r => decide (r.name ∉ ignore))).map (fun r => r.name))

/-- The backend-resolution stage of `Server::scrape` (servers.rs, the
`match self.backend_type` block): on success it yields the resolved
repository set, the detected backend, and the repositories.json-derived
metadata; on failure the scrape aborts with the given error. -/
def Server.backend_stage (srv : Server) (env : ScrapeEnv)
    (repositories ignored_repositories : List String)
    (only_scrape_forced_repos : Bool) :
    Except CVMFSScraperError (List String × ServerBackendType × MetadataFromRepoJSON) :=
  let ignore := ignored_repositories
  let all_repos :=
    btreeFromList (repositories.filter (fun r => decide (r ∉ ignore)))
  let metadata : MetadataFromRepoJSON := ⟨none, none, ⟨none⟩, none, none, none⟩
  match srv.backend_type with
  | .AutoDetect =>
    match env.reposJson with
    | .ok repo_json =>
      match srv.validate_repo_json_and_server_type repo_json with
      | .error e => .error e
      | .ok _ =>
        match MetadataFromRepoJSON.try_from env repo_json with
        | .error e => .error (.ScrapeError e)
        | .ok meta =>
          let repos :=
            if !only_scrape_forced_repos then extendWithJson all_repos ignore repo_json
            else all_repos
          .ok (repos, .CVMFS, meta)
    | .error e =>
      match e with
      | .FetchError _ => .ok (all_repos, .S3, metadata)
      | _ => .error (.ScrapeError e)
  | .S3 =>
    if all_repos.isEmpty then
      .error (.ScrapeError (.EmptyRepositoryList srv.hostname.str))
    else
      .ok (all_repos, srv.backend_type, metadata)
  | .CVMFS =>
    match env.reposJson with
    | .error e => .error (.ScrapeError e)
    | .ok repo_json =>
      match MetadataFromRepoJSON.try_from env repo_json with
      | .error e => .error (.ScrapeError e)
      | .ok meta =>
        match srv.validate_repo_json_and_server_type repo_json with
        | .error e => .error e
        | .ok _ =>
          let repos :=
            if !only_scrape_forced_repos then extendWithJson all_repos ignore repo_json
            else all_repos
          .ok (repos, srv.backend_type, meta)

/-- The per-repository loop of `Server::scrape`: scrape each name in set
order; the first failure aborts with that error, discarding every
already-collected result. -/
def scrapeRepos (srv : Server) (env : ScrapeEnv) :
    List String → Except CVMFSScraperError (List PopulatedRepositoryOrReplica)
  | [] => .ok []
  | name :: rest =>
    match (RepositoryOrReplica.mk srv name).scrape env with
    | .error e => .error e
    | .ok populated_repo =>
      match scrapeRepos srv env rest with
      | .error e => .error e
      | .ok prs => .ok (populated_repo :: prs)

/-- servers.rs: `Server::scrape`.  Mirrors the source top to bottom:
default geoapi servers, backend resolution, per-repository loop, optional
meta.json fetch (never fatal), metadata merge, geoapi probe (skipped for
Stratum0 or when no repository was populated), final `Populated`. -/
def Server.scrape (srv : Server) (env : ScrapeEnv)
    (repositories ignored_repositories : List String)
    (only_scrape_forced_repos : Bool)
    (geoapi_servers_opt : Option (List Hostname)) : ScrapedServer :=
  let geoapi_servers :=
    match geoapi_servers_opt with
    | some servers => servers
    | none => DEFAULT_GEOAPI_SERVERS
  match srv.backend_stage env repositories ignored_repositories
      only_scrape_forced_repos with
  | .error e => .Failed (srv.to_failed_server e)
  | .ok (all_repos, backend_detected, metadata) =>
    match scrapeRepos srv env all_repos with
    | .error e => .Failed (srv.to_failed_server e)
    | .ok populated_repos =>
      let meta_json : Option MetaJSON :=
        match env.metaJson with
        | .ok meta => some meta
        | .error _ => none
      let merged := srv.merge_metadata metadata meta_json
      let geoapi_stage : Except ScrapeError GeoapiServerQuery :=
        match populated_repos with
        | p :: _ =>
          if srv.server_type ≠ .Stratum0 then
            srv.fetch_geoapi env p.name backend_detected geoapi_servers
          else
            .ok ⟨srv.hostname, geoapi_servers, []⟩
        | [] => .ok ⟨srv.hostname, geoapi_servers, []⟩
      match geoapi_stage with
      | .error e => .Failed (srv.to_failed_server (.ScrapeError e))
      | .ok geoapi =>
        .Populated ⟨srv.server_type, srv.backend_type, backend_detected,
          srv.hostname, populated_repos, merged, geoapi⟩

/-- The repository set `Server::scrape` resolves for the per-repository
loop, extracted from `backend_stage` for specification: forced names minus
ignored names, extended (unless only-forced is set) with the names a
successfully fetched repositories.json advertises, minus ignored names. -/
def Server.resolved_repos (srv : Server) (env : ScrapeEnv)
    (repositories ignored_repositories : List String)
    (only_scrape_forced_repos : Bool) : List String :=
  let ignore := ignored_repositories
  let all_repos :=
    btreeFromList (repositories.filter (fun r => decide (r ∉ ignore)))
  match srv.backend_type with
  | .S3 => all_repos
  | _ =>
    match env.reposJson with
    | .ok repo_json =>
      if !only_scrape_forced_repos then extendWithJson all_repos ignore repo_json
      else all_repos
    | .error _ => all_repos

/-- A fixture environment in which every fetch fails at the transport
layer and the semver parser rejects everything. -/
def envDown : ScrapeEnv :=
  ⟨.error (.FetchError "connection refused"),
   .error (.FetchError "connection refused"),
   fun _ => .error (.FetchError "connection refused"),
   fun _ => .error (.FetchError "connection refused"),
   fun _ => .error (.FetchError "connection refused"),
   fun _ => .error "unexpected character"⟩

/-! ## Helper lemmas -/

theorem charUtf8Size_eq_one_of_hex (c : Char) (h : isAsciiHexDigit c = true) :
    charUtf8Size c = 1 := by
  have hle : c.val ≤ 0x7F := by
    simp only [isAsciiHexDigit, Char.isDigit, Bool.or_eq_true, Bool.and_eq_true,
      decide_eq_true_eq] at h
    rcases h with (⟨_, h2⟩ | ⟨_, h2⟩) | ⟨_, h2⟩
    · exact UInt32.le_trans h2 (by decide)
    · exact UInt32.le_trans (Char.le_def.mp h2) (by decide)
    · exact UInt32.le_trans (Char.le_def.mp h2) (by decide)
  simp [charUtf8Size, hle]

theorem sum_utf8_of_hex : ∀ l : List Char, l.all isAsciiHexDigit = true →
    (l.map charUtf8Size).sum = l.length
  | [], _ => rfl
  | c :: cs, h => by
    simp only [List.all_cons, Bool.and_eq_true] at h
    simp [charUtf8Size_eq_one_of_hex c h.1, sum_utf8_of_hex cs h.2,
      Nat.add_comm]

theorem byteLen_eq_length_of_hex (s : String)
    (h : s.data.all isAsciiHexDigit = true) : byteLen s = s.length := by
  have : s.length = s.data.length := rfl
  rw [byteLen, this, sum_utf8_of_hex s.data h]

theorem mem_btreeInsert (x y : String) :
    ∀ l : List String, y ∈ btreeInsert x l ↔ y = x ∨ y ∈ l
  | [] => by simp [btreeInsert]
  | z :: zs => by
    unfold btreeInsert
    by_cases h1 : x < z
    · simp [h1]
    · by_cases h2 : x = z
      · subst h2
        simp only [h1, if_false, if_pos rfl]
        constructor
        · exact fun h => Or.inr h
        · rintro (rfl | h) <;> simp_all
      · simp only [h1, h2, if_false, List.mem_cons, mem_btreeInsert x y zs]
        tauto

theorem mem_btreeExtend (y : String) :
    ∀ (l s : List String), y ∈ btreeExtend s l ↔ y ∈ s ∨ y ∈ l
  | [], s => by simp [btreeExtend]
  | x :: xs, s => by
    have step : btreeExtend s (x :: xs) = btreeExtend (btreeInsert x s) xs := rfl
    rw [step, mem_btreeExtend y xs (btreeInsert x s), mem_btreeInsert x y s]
    simp only [List.mem_cons]
    tauto

theorem mem_btreeFromList (y : String) (l : List String) :
    y ∈ btreeFromList l ↔ y ∈ l := by
  simp [btreeFromList, mem_btreeExtend]

theorem btreeFromList_eq_nil (l : List String) :
    btreeFromList l = [] ↔ l = [] := by
  constructor
  · intro h
    cases l with
    | nil => rfl
    | cons x xs =>
      have : x ∈ btreeFromList (x :: xs) := (mem_btreeFromList x _).mpr (by simp)
      rw [h] at this
      cases this
  · rintro rfl; rfl

/-! ## Claims -/

/-- Claim C8: `HexString::new` (and hash-field parsing via
`parse_hex_field`) succeeds exactly on even-length strings whose characters
are all ASCII hexadecimal digits, the empty string included; the stored
value is the lowercase image of the input, and every other string is
rejected with an invalid-hex error carrying the input. -/
theorem claim_c8 (s : String) :
    (HexString.new s = .ok ⟨s.map Char.toLower⟩ ↔
      s.length % 2 = 0 ∧ ∀ c ∈ s.data, isAsciiHexDigit c = true) ∧
    ((s.length % 2 ≠ 0 ∨ ∃ c ∈ s.data, isAsciiHexDigit c = false) →
      HexString.new s = .error (.InvalidHex s)) ∧
    (∀ dm k, dm k = some s → parse_hex_field dm k = HexString.new s) := by
  refine ⟨⟨?_, ?_⟩, ?_, ?_⟩
  · intro h
    unfold HexString.new at h
    split at h
    · next hc =>
      simp only [Bool.and_eq_true] at hc
      have hall : ∀ c ∈ s.data, isAsciiHexDigit c = true :=
        List.all_eq_true.mp hc.2
      refine ⟨?_, hall⟩
      have hb := byteLen_eq_length_of_hex s hc.2
      have := of_decide_eq_true hc.1
      omega
    · exact absurd h (by simp)
  · rintro ⟨h1, h2⟩
    have hall : s.data.all isAsciiHexDigit = true := List.all_eq_true.mpr h2
    unfold HexString.new
    rw [if_pos]
    rw [byteLen_eq_length_of_hex s hall, hall]
    simpa using h1
  · intro h
    unfold HexString.new
    rw [if_neg]
    intro hc
    simp only [Bool.and_eq_true] at hc
    rcases h with h | ⟨c, hc1, hc2⟩
    · have := byteLen_eq_length_of_hex s hc.2
      have := of_decide_eq_true hc.1
      omega
    · have := List.all_eq_true.mp hc.2 c hc1
      rw [this] at hc2
      cases hc2
  · intro dm k hk
    simp [parse_hex_field, hk]

theorem claim_c8_witness :
    (HexString.new "" = .ok ⟨String.map Char.toLower ""⟩) ∧
    (HexString.new "AB3f" = .ok ⟨String.map Char.toLower "AB3f"⟩) ∧
    (HexString.new "abc" = .error (.InvalidHex "abc")) ∧
    (HexString.new "zz" = .error (.InvalidHex "zz")) :=
  ⟨(claim_c8 "").1.mpr (by decide),
   (claim_c8 "AB3f").1.mpr (by decide),
   (claim_c8 "abc").2.1 (Or.inl (by decide)),
   (claim_c8 "zz").2.1 (Or.inr ⟨'z', by decide, by decide⟩)⟩

/-- Claim C6: whenever a repositories.json was fetched, role validation
fails exactly for a Stratum0 server with a non-empty replica list, a
Stratum1 server with an empty replica list, and a SyncServer with an empty
replica list, each with a `ServerTypeMismatch` message naming the hostname,
the configured role and the contradiction; every other combination
validates. -/
theorem claim_c6 (srv : Server) (j : RepositoriesJSON) :
    (srv.server_type = .Stratum0 → j.replicas ≠ [] →
      srv.validate_repo_json_and_server_type j =
        .error (.ScrapeError (.ServerTypeMismatch (srv.hostname.str ++
          " is a Stratum0 server, but replicas were found in the repositories.json")))) ∧
    (srv.server_type = .Stratum1 → j.replicas = [] →
      srv.validate_repo_json_and_server_type j =
        .error (.ScrapeError (.ServerTypeMismatch (srv.hostname.str ++
          " is a Stratum1 server, but no replicas were found in the repositories.json")))) ∧
    (srv.server_type = .SyncServer → j.replicas = [] →
      srv.validate_repo_json_and_server_type j =
        .error (.ScrapeError (.ServerTypeMismatch (srv.hostname.str ++
          " is a SyncServer, but no replicas were found in the repositories.json")))) ∧
    ((srv.server_type = .Stratum0 ∧ j.replicas = []) ∨
      (srv.server_type ≠ .Stratum0 ∧ j.replicas ≠ []) →
      srv.validate_repo_json_and_server_type j = .ok ()) := by
  refine ⟨?_, ?_, ?_, ?_⟩ <;>
    · cases hty : srv.server_type <;> cases hrep : j.replicas <;>
        simp_all [Server.validate_repo_json_and_server_type]

theorem claim_c6_witness :
    (Server.validate_repo_json_and_server_type ⟨.Stratum0, .CVMFS, ⟨"s0.example.org"⟩⟩
        ⟨1, ⟨none⟩, none, none, none, none, [], [⟨"r1", "/cvmfs/r1"⟩]⟩ =
      .error (.ScrapeError (.ServerTypeMismatch
        "s0.example.org is a Stratum0 server, but replicas were found in the repositories.json"))) ∧
    (Server.validate_repo_json_and_server_type ⟨.Stratum1, .CVMFS, ⟨"s1.example.org"⟩⟩
        ⟨1, ⟨none⟩, none, none, none, none, [], []⟩ =
      .error (.ScrapeError (.ServerTypeMismatch
        "s1.example.org is a Stratum1 server, but no replicas were found in the repositories.json"))) ∧
    (Server.validate_repo_json_and_server_type ⟨.SyncServer, .CVMFS, ⟨"sy.example.org"⟩⟩
        ⟨1, ⟨none⟩, none, none, none, none, [], []⟩ =
      .error (.ScrapeError (.ServerTypeMismatch
        "sy.example.org is a SyncServer, but no replicas were found in the repositories.json"))) ∧
    (Server.validate_repo_json_and_server_type ⟨.Stratum1, .CVMFS, ⟨"s1.example.org"⟩⟩
        ⟨1, ⟨none⟩, none, none, none, none, [], [⟨"r1", "/cvmfs/r1"⟩]⟩ = .ok ()) :=
  ⟨((claim_c6 _ _).1 rfl (by decide)).trans (by decide),
   ((claim_c6 _ _).2.1 rfl rfl).trans (by decide),
   ((claim_c6 _ _).2.2.1 rfl rfl).trans (by decide),
   (claim_c6 _ _).2.2.2 (Or.inr ⟨by decide, by decide⟩)⟩

/-- Claim C2: the claim states that with `only_scrape_forced_repos = true`
a forced name also present in the ignore list is still scraped (as the
source doc comment for `Server::scrape` promises).  The code instead
filters the forced list through the ignore set before the flag is ever
consulted: at the failing input the resolved set is empty, and with an S3
backend the scrape even fails on the supposedly non-empty forced list. -/
theorem claim_c2 :
    Server.resolved_repos ⟨.Stratum1, .S3, ⟨"example.org"⟩⟩ envDown
        ["repo.example"] ["repo.example"] true = [] ∧
    Server.scrape ⟨.Stratum1, .S3, ⟨"example.org"⟩⟩ envDown
        ["repo.example"] ["repo.example"] true none =
      .Failed ⟨⟨"example.org"⟩, .Stratum1, .S3,
        .ScrapeError (.EmptyRepositoryList "example.org")⟩ := by
  exact ⟨rfl, rfl⟩

theorem hostnameIndexMap_of_bounds (hosts : List Hostname) (d : Hostname) :
    ∀ order : List Nat, (∀ i ∈ order, i < hosts.length) →
      hostnameIndexMap hosts order = some (order.map (fun i => hosts.getD i d))
  | [], _ => rfl
  | i :: rest, h => by
    have hi : i < hosts.length := h i (by simp)
    have hget : hosts.get? i = some (hosts.getD i d) := by
      rw [List.get?_eq_getElem?, List.getD_eq_getElem?_getD,
        List.getElem?_eq_getElem hi]
      rfl
    have hrest := hostnameIndexMap_of_bounds hosts d rest
      (fun x hx => h x (by simp [hx]))
    rw [hostnameIndexMap, hget, hrest]
    rfl

theorem hostnameIndexMap_oob (hosts : List Hostname) (i : Nat)
    (hoob : hosts.length ≤ i) :
    ∀ order : List Nat, i ∈ order → hostnameIndexMap hosts order = none
  | j :: rest, hmem => by
    rcases List.mem_cons.mp hmem with rfl | hmem2
    · have hnone : hosts.get? i = none := by
        rw [List.get?_eq_getElem?]
        exact List.getElem?_eq_none hoob
      rw [hostnameIndexMap, hnone]
    · have hrest := hostnameIndexMap_oob hosts i hoob rest hmem2
      unfold hostnameIndexMap
      rw [hrest]
      cases hosts.get? j <;> rfl

/-- Claim C7: with all response indices in bounds, the by-hostname check
first reports a plain mismatch (`Ok(false)`) whenever the candidate and
expected hostname collections differ as sets; with identical sets it
surfaces an error when the response length differs from the candidate
count, and otherwise answers whether the indices resolve to the expected
hostname sequence in order. -/
theorem claim_c7 (q : GeoapiServerQuery) (expected : List Hostname)
    (hb : ∀ i ∈ q.response, i < q.geoapi_hosts.length) :
    (((∃ h ∈ q.geoapi_hosts, h ∉ expected) ∨ (∃ h ∈ expected, h ∉ q.geoapi_hosts)) →
      q.check_against_expected_order_by_hostname expected = .ok false) ∧
    ((∀ h ∈ q.geoapi_hosts, h ∈ expected) → (∀ h ∈ expected, h ∈ q.geoapi_hosts) →
      q.response.length ≠ q.geoapi_hosts.length →
      ∃ e, q.check_against_expected_order_by_hostname expected = .error e) ∧
    ((∀ h ∈ q.geoapi_hosts, h ∈ expected) → (∀ h ∈ expected, h ∈ q.geoapi_hosts) →
      q.response.length = q.geoapi_hosts.length →
      q.check_against_expected_order_by_hostname expected =
        .ok (decide (q.response.map (fun i => q.geoapi_hosts.getD i q.hostname) =
          expected))) := by
  refine ⟨?_, ?_, ?_⟩
  · intro hdiff
    unfold GeoapiServerQuery.check_against_expected_order_by_hostname
    rw [if_pos]
    rcases hdiff with ⟨h, hmem, hnot⟩ | ⟨h, hmem, hnot⟩
    · exact Or.inl (List.ne_nil_of_mem
        (List.mem_filter.mpr ⟨hmem, by simpa using hnot⟩))
    · exact Or.inr (List.ne_nil_of_mem
        (List.mem_filter.mpr ⟨hmem, by simpa using hnot⟩))
  · intro h1 h2 hlen
    unfold GeoapiServerQuery.check_against_expected_order_by_hostname
    rw [if_neg, GeoapiServerQuery.map_response_order_to_geoapi_hostnames,
      if_pos hlen]
    · exact ⟨_, rfl⟩
    · push_neg
      constructor <;>
        · rw [List.filter_eq_nil_iff]
          intro a ha
          simp_all
  · intro h1 h2 hlen
    unfold GeoapiServerQuery.check_against_expected_order_by_hostname
    rw [if_neg, GeoapiServerQuery.map_response_order_to_geoapi_hostnames,
      if_neg (by simpa using hlen)]
    · rw [GeoapiServerQuery.map_order_to_geoapi_hostname,
        hostnameIndexMap_of_bounds q.geoapi_hosts q.hostname q.response hb]
    · push_neg
      constructor <;>
        · rw [List.filter_eq_nil_iff]
          intro a ha
          simp_all

theorem claim_c7_witness :
    ((GeoapiServerQuery.mk ⟨"s1.example.org"⟩ [⟨"a.org"⟩, ⟨"b.org"⟩] [1, 0]).check_against_expected_order_by_hostname
        [⟨"b.org"⟩, ⟨"a.org"⟩] = .ok true) ∧
    (∃ e, (GeoapiServerQuery.mk ⟨"s1.example.org"⟩ [⟨"a.org"⟩, ⟨"b.org"⟩] [0]).check_against_expected_order_by_hostname
        [⟨"a.org"⟩, ⟨"b.org"⟩] = .error e) ∧
    ((GeoapiServerQuery.mk ⟨"s1.example.org"⟩ [⟨"a.org"⟩, ⟨"b.org"⟩] [1, 0]).check_against_expected_order_by_hostname
        [⟨"a.org"⟩] = .ok false) := by
  refine ⟨?_, ?_, ?_⟩
  · exact ((claim_c7 _ [⟨"b.org"⟩, ⟨"a.org"⟩] (by decide)).2.2
      (by decide) (by decide) (by decide)).trans (by decide)
  · exact (claim_c7 (GeoapiServerQuery.mk ⟨"s1.example.org"⟩
      [⟨"a.org"⟩, ⟨"b.org"⟩] [0]) [⟨"a.org"⟩, ⟨"b.org"⟩] (by decide)).2.1
      (by decide) (by decide) (by decide)
  · exact (claim_c7 _ [⟨"a.org"⟩] (by decide)).1
      (Or.inl ⟨⟨"b.org"⟩, by decide, by decide⟩)

/-- Claim C10: the length guard of the index-to-hostname resolution does
not establish bounds: a response of the right length containing an
out-of-range index makes `map_response_order_to_geoapi_hostnames` (and the
by-hostname check, when the candidate and expected sets coincide) panic
rather than return a `GeoAPIFailure`. -/
theorem claim_c10 (q : GeoapiServerQuery) (expected : List Hostname) (i : Nat)
    (hlen : q.response.length = q.geoapi_hosts.length)
    (hi : i ∈ q.response) (hoob : q.geoapi_hosts.length ≤ i) :
    q.map_response_order_to_geoapi_hostnames = .panicked ∧
    ((∀ h ∈ q.geoapi_hosts, h ∈ expected) → (∀ h ∈ expected, h ∈ q.geoapi_hosts) →
      q.check_against_expected_order_by_hostname expected = .panicked) := by
  have hmap : q.map_response_order_to_geoapi_hostnames = .panicked := by
    unfold GeoapiServerQuery.map_response_order_to_geoapi_hostnames
    rw [if_neg (by simpa using hlen),
      GeoapiServerQuery.map_order_to_geoapi_hostname,
      hostnameIndexMap_oob q.geoapi_hosts i hoob q.response hi]
  refine ⟨hmap, ?_⟩
  intro h1 h2
  unfold GeoapiServerQuery.check_against_expected_order_by_hostname
  rw [if_neg, hmap]
  push_neg
  constructor <;>
    · rw [List.filter_eq_nil_iff]
      intro a ha
      simp_all

theorem claim_c10_witness :
    (GeoapiServerQuery.mk ⟨"s1.example.org"⟩ [⟨"a.org"⟩, ⟨"b.org"⟩] [0, 2]).map_response_order_to_geoapi_hostnames
      = .panicked ∧
    (GeoapiServerQuery.mk ⟨"s1.example.org"⟩ [⟨"a.org"⟩, ⟨"b.org"⟩] [0, 2]).check_against_expected_order_by_hostname
      [⟨"b.org"⟩, ⟨"a.org"⟩] = .panicked := by
  have h := claim_c10 (GeoapiServerQuery.mk ⟨"s1.example.org"⟩
    [⟨"a.org"⟩, ⟨"b.org"⟩] [0, 2]) [⟨"b.org"⟩, ⟨"a.org"⟩] 2
    (by decide) (by decide) (by decide)
  exact ⟨h.1, h.2 (by decide) (by decide)⟩

theorem manifestLoop_isSome_of_sig :
    ∀ (lines : List (List Char)) (dm : DataMap) (sig : String),
      (manifestLoop lines (dm, sig, true)).isSome = true
  | [], _, _ => rfl
  | line :: rest, dm, sig => by
    unfold manifestLoop
    by_cases h : line = ['-', '-']
    · rw [if_pos h]
      exact manifestLoop_isSome_of_sig rest dm sig
    · rw [if_neg h, if_pos rfl]
      exact manifestLoop_isSome_of_sig rest dm _

theorem manifestLoop_isSome :
    ∀ (lines : List (List Char)) (dm : DataMap) (sig : String),
      (∀ ln ∈ lines.takeWhile (fun l => decide (l ≠ ['-', '-'])),
        ln ≠ [] ∧ charUtf8Size ln.headI = 1) →
      (manifestLoop lines (dm, sig, false)).isSome = true
  | [], _, _, _ => rfl
  | line :: rest, dm, sig, h => by
    unfold manifestLoop
    by_cases hsep : line = ['-', '-']
    · rw [if_pos hsep]
      exact manifestLoop_isSome_of_sig rest dm sig
    · have htake : (line :: rest).takeWhile (fun l => decide (l ≠ ['-', '-'])) =
          line :: rest.takeWhile (fun l => decide (l ≠ ['-', '-'])) := by
        simp [List.takeWhile_cons, hsep]
      rw [htake] at h
      have hline := h line (by simp)
      rw [if_neg hsep, if_neg (by simp)]
      cases line with
      | nil => exact absurd rfl hline.1
      | cons k v =>
        have hk : charUtf8Size k = 1 := hline.2
        show (if charUtf8Size k = 1 then
            manifestLoop rest (dmInsert dm k ⟨v⟩, sig, false) else none).isSome = true
        rw [if_pos hk]
        exact manifestLoop_isSome rest _ sig
          (fun ln hln => h ln (List.mem_cons_of_mem _ hln))

theorem manifestLoop_none_of_empty_line :
    ∀ (lines : List (List Char)) (dm : DataMap) (sig : String),
      ([] : List Char) ∈ lines.takeWhile (fun l => decide (l ≠ ['-', '-'])) →
      manifestLoop lines (dm, sig, false) = none
  | line :: rest, dm, sig, h => by
    by_cases hsep : line = ['-', '-']
    · rw [hsep] at h
      simp [List.takeWhile_cons] at h
    · have htake : (line :: rest).takeWhile (fun l => decide (l ≠ ['-', '-'])) =
          line :: rest.takeWhile (fun l => decide (l ≠ ['-', '-'])) := by
        simp [List.takeWhile_cons, hsep]
      rw [htake] at h
      unfold manifestLoop
      rw [if_neg hsep, if_neg (by simp)]
      rcases List.mem_cons.mp h with heq | hmem
      · rw [← heq]
      · cases line with
        | nil => rfl
        | cons k v =>
          show (if charUtf8Size k = 1 then
              manifestLoop rest (dmInsert dm k ⟨v⟩, sig, false) else none) = none
          by_cases hk : charUtf8Size k = 1
          · rw [if_pos hk]
            exact manifestLoop_none_of_empty_line rest _ sig hmem
          · rw [if_neg hk]

/-- Claim C9: `Manifest::from_str` is not total: when every line before the
first `--` separator is non-empty and starts with a single-byte character,
parsing returns a `Manifest` or a `ManifestError` without panicking, but
any input with an empty line before the separator panics (the source
unwraps the missing first character) instead of producing a
field-identified error. -/
theorem claim_c9 (content : String) :
    ((∀ ln ∈ preSignatureLines content, ln ≠ [] ∧ charUtf8Size ln.headI = 1) →
      (∃ mf, Manifest.from_str content = .ok mf) ∨
      (∃ e, Manifest.from_str content = .error e)) ∧
    (([] : List Char) ∈ preSignatureLines content →
      Manifest.from_str content = .panicked) := by
  constructor
  · intro h
    have hsome := manifestLoop_isSome (rustLines content) dmEmpty "" h
    obtain ⟨⟨dm, sig, b⟩, hst⟩ := Option.isSome_iff_exists.mp hsome
    have hfs : Manifest.from_str content =
        (match buildManifest dm sig with
          | .ok mf => RustOutcome.ok mf
          | .error e => RustOutcome.error e) := by
      rw [Manifest.from_str, hst]
    cases hbm : buildManifest dm sig with
    | ok mf => exact Or.inl ⟨mf, by rw [hfs, hbm]⟩
    | error e => exact Or.inr ⟨e, by rw [hfs, hbm]⟩
  · intro h
    rw [Manifest.from_str, manifestLoop_none_of_empty_line (rustLines content)
      dmEmpty "" h]

theorem claim_c9_witness :
    ((∃ mf, Manifest.from_str
        "C\nB0\nA\nR\nX\nG\nH\nT0\nD0\nS0\nNrepo\nM\nY\n--\nsig" = .ok mf) ∨
     (∃ e, Manifest.from_str
        "C\nB0\nA\nR\nX\nG\nH\nT0\nD0\nS0\nNrepo\nM\nY\n--\nsig" = .error e)) ∧
    Manifest.from_str "Cab\n\n--\nsig" = .panicked :=
  ⟨(claim_c9 _).1 (by decide), (claim_c9 _).2 (by decide)⟩

theorem repoScrape_ok_name (srv : Server) (env : ScrapeEnv) (name : String)
    (pr : PopulatedRepositoryOrReplica)
    (h : (RepositoryOrReplica.mk srv name).scrape env = .ok pr) : pr.name = name := by
  simp only [RepositoryOrReplica.scrape] at h
  split at h
  · exact absurd h (by simp)
  · split at h
    · exact absurd h (by simp)
    · cases h
      rfl

theorem scrapeRepos_ok_names (srv : Server) (env : ScrapeEnv) :
    ∀ (names : List String) (prs : List PopulatedRepositoryOrReplica),
      scrapeRepos srv env names = .ok prs → prs.map (fun p => p.name) = names
  | [], prs, h => by
    unfold scrapeRepos at h
    cases h
    rfl
  | name :: rest, prs, h => by
    unfold scrapeRepos at h
    cases hrepo : (RepositoryOrReplica.mk srv name).scrape env with
    | error e =>
      rw [hrepo] at h
      exact absurd h (by simp)
    | ok pr =>
      rw [hrepo] at h
      cases hrest : scrapeRepos srv env rest with
      | error e =>
        rw [hrest] at h
        exact absurd h (by simp)
      | ok prs2 =>
        rw [hrest] at h
        cases h
        have hname := repoScrape_ok_name srv env name pr hrepo
        simp [hname, scrapeRepos_ok_names srv env rest prs2 hrest]

theorem scrapeRepos_error_of_mem (srv : Server) (env : ScrapeEnv) :
    ∀ (names : List String) (name : String) (e : CVMFSScraperError),
      name ∈ names → (RepositoryOrReplica.mk srv name).scrape env = .error e →
      ∃ e2, scrapeRepos srv env names = .error e2
  | hd :: rest, name, e, hmem, herr => by
    unfold scrapeRepos
    rcases List.mem_cons.mp hmem with rfl | hmem2
    · refine ⟨e, ?_⟩
      rw [herr]
    · cases hhd : (RepositoryOrReplica.mk srv hd).scrape env with
      | error e2 => exact ⟨e2, rfl⟩
      | ok pr =>
        obtain ⟨e2, h2⟩ :=
          scrapeRepos_error_of_mem srv env rest name e hmem2 herr
        refine ⟨e2, ?_⟩
        show (match scrapeRepos srv env rest with
          | .error e => Except.error e
          | .ok prs => Except.ok (pr :: prs)) = Except.error e2
        rw [h2]

theorem scrapeRepos_ok_of_forall (srv : Server) (env : ScrapeEnv) :
    ∀ names : List String,
      (∀ n ∈ names, ∃ pr, (RepositoryOrReplica.mk srv n).scrape env = .ok pr) →
      ∃ prs, scrapeRepos srv env names = .ok prs
  | [], _ => ⟨[], rfl⟩
  | hd :: rest, h => by
    obtain ⟨pr, hpr⟩ := h hd (by simp)
    obtain ⟨prs, hprs⟩ := scrapeRepos_ok_of_forall srv env rest
      (fun n hn => h n (List.mem_cons_of_mem _ hn))
    refine ⟨pr :: prs, ?_⟩
    unfold scrapeRepos
    rw [hpr, hprs]

theorem backend_stage_ok_repos (srv : Server) (env : ScrapeEnv)
    (forced ign : List String) (only : Bool)
    (r : List String) (b : ServerBackendType) (m : MetadataFromRepoJSON)
    (h : srv.backend_stage env forced ign only = .ok (r, b, m)) :
    r = srv.resolved_repos env forced ign only := by
  unfold Server.backend_stage at h
  unfold Server.resolved_repos
  cases hbt : srv.backend_type with
  | AutoDetect =>
    simp only [hbt] at h ⊢
    cases hrj : env.reposJson with
    | ok j =>
      simp only [hrj] at h ⊢
      cases hv : srv.validate_repo_json_and_server_type j with
      | error e => simp [hv] at h
      | ok u =>
        cases hm : MetadataFromRepoJSON.try_from env j with
        | error e => simp [hv, hm] at h
        | ok meta =>
          simp only [hv, hm, Except.ok.injEq, Prod.mk.injEq] at h
          exact h.1.symm
    | error e =>
      simp only [hrj] at h ⊢
      cases e with
      | FetchError msg =>
        simp only [Except.ok.injEq, Prod.mk.injEq] at h
        exact h.1.symm
      | ParseError s => exact absurd h (by simp)
      | InvalidJson s => exact absurd h (by simp)
      | EmptyRepositoryList s => exact absurd h (by simp)
      | ServerTypeMismatch s => exact absurd h (by simp)
      | ChronoParseError s => exact absurd h (by simp)
      | ConversionError s => exact absurd h (by simp)
      | GeoAPIFailure s => exact absurd h (by simp)
  | S3 =>
    simp only [hbt] at h ⊢
    split at h
    · exact absurd h (by simp)
    · simp only [Except.ok.injEq, Prod.mk.injEq] at h
      exact h.1.symm
  | CVMFS =>
    simp only [hbt] at h ⊢
    cases hrj : env.reposJson with
    | ok j =>
      simp only [hrj] at h ⊢
      cases hm : MetadataFromRepoJSON.try_from env j with
      | error e => simp [hm] at h
      | ok meta =>
        cases hv : srv.validate_repo_json_and_server_type j with
        | error e => simp [hm, hv] at h
        | ok u =>
          simp only [hm, hv, Except.ok.injEq, Prod.mk.injEq] at h
          exact h.1.symm
    | error e => simp [hrj] at h

theorem repoScrape_reposJson_irrelevant (srv : Server) (env : ScrapeEnv)
    (rj : Except ScrapeError RepositoriesJSON) (n : String) :
    (RepositoryOrReplica.mk srv n).scrape { env with reposJson := rj } =
      (RepositoryOrReplica.mk srv n).scrape env := rfl

theorem scrapeRepos_reposJson_irrelevant (srv : Server) (env : ScrapeEnv)
    (rj : Except ScrapeError RepositoriesJSON) :
    ∀ names : List String,
      scrapeRepos srv { env with reposJson := rj } names = scrapeRepos srv env names
  | [] => rfl
  | n :: rest => by
    unfold scrapeRepos
    rw [scrapeRepos_reposJson_irrelevant srv env rj rest]
    rfl

theorem fetch_geoapi_reposJson_irrelevant (srv : Server) (env : ScrapeEnv)
    (rj : Except ScrapeError RepositoriesJSON) (rn : String)
    (bt : ServerBackendType) (gh : List Hostname) :
    srv.fetch_geoapi { env with reposJson := rj } rn bt gh =
      srv.fetch_geoapi env rn bt gh := rfl

theorem backend_stage_s3_reposJson_irrelevant (srv : Server) (env : ScrapeEnv)
    (rj : Except ScrapeError RepositoriesJSON)
    (forced ign : List String) (only : Bool) (hb : srv.backend_type = .S3) :
    srv.backend_stage { env with reposJson := rj } forced ign only =
      srv.backend_stage env forced ign only := by
  unfold Server.backend_stage
  simp only [hb]

/-- Claim C1: every server scrape yields exactly one of `Populated` and
`Failed`, and whenever any repository of the resolved set fails its status
or manifest fetch, the whole scrape is `Failed`, carrying only the server
identity and the cause - the repositories already collected in the same
invocation are discarded, never returned as partial data. -/
theorem claim_c1 (srv : Server) (env : ScrapeEnv) (forced ign : List String)
    (only : Bool) (geo : Option (List Hostname)) :
    ((∃ p, srv.scrape env forced ign only geo = .Populated p) ↔
      ¬ ∃ f, srv.scrape env forced ign only geo = .Failed f) ∧
    ((∃ name ∈ srv.resolved_repos env forced ign only,
        ∃ e, (RepositoryOrReplica.mk srv name).scrape env = .error e) →
      ∃ err, srv.scrape env forced ign only geo =
        .Failed (srv.to_failed_server err)) := by
  constructor
  · cases hres : srv.scrape env forced ign only geo with
    | Populated p => simp [hres]
    | Failed f => simp [hres]
  · rintro ⟨name, hmem, e, herr⟩
    cases hstage : srv.backend_stage env forced ign only with
    | error err =>
      refine ⟨err, ?_⟩
      simp only [Server.scrape, hstage]
    | ok t =>
      obtain ⟨r, b, m⟩ := t
      have hr := backend_stage_ok_repos srv env forced ign only r b m hstage
      rw [← hr] at hmem
      obtain ⟨e2, h2⟩ := scrapeRepos_error_of_mem srv env r name e hmem herr
      refine ⟨e2, ?_⟩
      simp only [Server.scrape, hstage, h2]

theorem claim_c1_witness :
    (∃ name ∈ Server.resolved_repos ⟨.Stratum1, .S3, ⟨"example.org"⟩⟩ envDown
        ["a.repo"] [] true,
      ∃ e, (RepositoryOrReplica.mk ⟨.Stratum1, .S3, ⟨"example.org"⟩⟩ name).scrape
        envDown = .error e) ∧
    ∃ err, Server.scrape ⟨.Stratum1, .S3, ⟨"example.org"⟩⟩ envDown
        ["a.repo"] [] true none =
      .Failed (Server.to_failed_server ⟨.Stratum1, .S3, ⟨"example.org"⟩⟩ err) := by
  have hpre : ∃ name ∈ Server.resolved_repos ⟨.Stratum1, .S3, ⟨"example.org"⟩⟩
      envDown ["a.repo"] [] true,
      ∃ e, (RepositoryOrReplica.mk ⟨.Stratum1, .S3, ⟨"example.org"⟩⟩ name).scrape
        envDown = .error e :=
    ⟨"a.repo", by decide,
      .ScrapeError (.FetchError "connection refused"), rfl⟩
  exact ⟨hpre, (claim_c1 ⟨.Stratum1, .S3, ⟨"example.org"⟩⟩ envDown
    ["a.repo"] [] true none).2 hpre⟩

/-- Claim C3: with the only-scrape-forced flag set, the resolved repository
set is exactly the forced names minus the ignored names, no matter what the
self-description fetch returns - so no advertised name is ever added, every
ignored name is excluded, and any populated result only carries forced,
non-ignored repositories. -/
theorem claim_c3 (srv : Server) (env : ScrapeEnv) (forced ign : List String)
    (geo : Option (List Hostname)) :
    srv.resolved_repos env forced ign true =
      btreeFromList (forced.filter (fun r => decide (r ∉ ign))) ∧
    (∀ name ∈ ign, name ∉ srv.resolved_repos env forced ign true) ∧
    (∀ p, srv.scrape env forced ign true geo = .Populated p →
      ∀ pr ∈ p.repositories, pr.name ∈ forced ∧ pr.name ∉ ign) := by
  have hres : srv.resolved_repos env forced ign true =
      btreeFromList (forced.filter (fun r => decide (r ∉ ign))) := by
    unfold Server.resolved_repos
    cases hbt : srv.backend_type <;> simp only [hbt] <;>
      cases hrj : env.reposJson <;> simp [hrj]
  have hmem_iff : ∀ name, name ∈ srv.resolved_repos env forced ign true →
      name ∈ forced ∧ name ∉ ign := by
    intro name hn
    rw [hres] at hn
    have := (mem_btreeFromList name _).mp hn
    have := List.mem_filter.mp this
    exact ⟨this.1, of_decide_eq_true this.2⟩
  refine ⟨hres, ?_, ?_⟩
  · intro name hn hmem
    exact (hmem_iff name hmem).2 hn
  · intro p hp pr hpr
    cases hstage : srv.backend_stage env forced ign true with
    | error e =>
      simp only [Server.scrape, hstage] at hp
      exact absurd hp (by simp)
    | ok t =>
      obtain ⟨r, b, m⟩ := t
      have hr := backend_stage_ok_repos srv env forced ign true r b m hstage
      cases hloop : scrapeRepos srv env r with
      | error e =>
        simp only [Server.scrape, hstage, hloop] at hp
        exact absurd hp (by simp)
      | ok prs =>
        have hnames := scrapeRepos_ok_names srv env r prs hloop
        simp only [Server.scrape, hstage, hloop] at hp
        split at hp
        · exact absurd hp (by simp)
        · simp only [ScrapedServer.Populated.injEq] at hp
          have hrepos : p.repositories = prs := by rw [← hp]
          rw [hrepos] at hpr
          have : pr.name ∈ prs.map (fun q => q.name) := List.mem_map_of_mem _ hpr
          rw [hnames, hr] at this
          exact hmem_iff pr.name this

theorem claim_c3_witness :
    Server.resolved_repos ⟨.Stratum1, .S3, ⟨"example.org"⟩⟩ envDown
        ["b.repo", "a.repo", "ign.repo"] ["ign.repo"] true =
      btreeFromList (["b.repo", "a.repo", "ign.repo"].filter
        (fun r => decide (r ∉ ["ign.repo"]))) ∧
    "ign.repo" ∉ Server.resolved_repos ⟨.Stratum1, .S3, ⟨"example.org"⟩⟩ envDown
        ["b.repo", "a.repo", "ign.repo"] ["ign.repo"] true :=
  ⟨(claim_c3 ⟨.Stratum1, .S3, ⟨"example.org"⟩⟩ envDown
      ["b.repo", "a.repo", "ign.repo"] ["ign.repo"] none).1,
   (claim_c3 ⟨.Stratum1, .S3, ⟨"example.org"⟩⟩ envDown
      ["b.repo", "a.repo", "ign.repo"] ["ign.repo"] none).2.1 "ign.repo"
      (by decide)⟩

/-- Claim C4: with `AutoDetect`, a transport-layer failure of the
self-description fetch silently detects an S3 backend and the scrape
proceeds with the forced-minus-ignored names, tolerating an empty set (it
can still end `Populated` with zero repositories); a successful fetch whose
role validation or metadata conversion fails makes the scrape `Failed`. -/
theorem claim_c4 (srv : Server) (env : ScrapeEnv) (forced ign : List String)
    (only : Bool) (geo : Option (List Hostname))
    (hb : srv.backend_type = .AutoDetect) :
    (∀ msg, env.reposJson = .error (.FetchError msg) →
      srv.backend_stage env forced ign only =
        .ok (btreeFromList (forced.filter (fun r => decide (r ∉ ign))), .S3,
          ⟨none, none, ⟨none⟩, none, none, none⟩) ∧
      (forced.filter (fun r => decide (r ∉ ign)) = [] →
        ∃ p, srv.scrape env forced ign only geo = .Populated p ∧
          p.repositories = [] ∧ p.backend_detected = .S3)) ∧
    (∀ j, env.reposJson = .ok j →
      ((∃ e, srv.validate_repo_json_and_server_type j = .error e) ∨
       (∃ e, MetadataFromRepoJSON.try_from env j = .error e)) →
      ∃ err, srv.scrape env forced ign only geo =
        .Failed (srv.to_failed_server err)) := by
  constructor
  · intro msg hfetch
    have hstage : srv.backend_stage env forced ign only =
        .ok (btreeFromList (forced.filter (fun r => decide (r ∉ ign))), .S3,
          ⟨none, none, ⟨none⟩, none, none, none⟩) := by
      simp only [Server.backend_stage, hb, hfetch]
    refine ⟨hstage, ?_⟩
    intro hnil
    rw [hnil] at hstage
    have h0 : btreeFromList ([] : List String) = [] := rfl
    rw [h0] at hstage
    simp only [Server.scrape, hstage, scrapeRepos]
    exact ⟨_, rfl, rfl, rfl⟩
  · intro j hrj hdisj
    cases hval : srv.validate_repo_json_and_server_type j with
    | error e =>
      refine ⟨e, ?_⟩
      simp only [Server.scrape, Server.backend_stage, hb, hrj, hval]
    | ok u =>
      rcases hdisj with ⟨e, he⟩ | ⟨e, he⟩
      · rw [hval] at he
        exact absurd he (by simp)
      · refine ⟨.ScrapeError e, ?_⟩
        simp only [Server.scrape, Server.backend_stage, hb, hrj, hval, he]

theorem claim_c4_witness :
    ∃ p, Server.scrape ⟨.Stratum1, .AutoDetect, ⟨"example.org"⟩⟩ envDown
        [] [] false none = .Populated p ∧
      p.repositories = [] ∧ p.backend_detected = .S3 :=
  ((claim_c4 ⟨.Stratum1, .AutoDetect, ⟨"example.org"⟩⟩ envDown [] [] false none
    rfl).1 "connection refused" rfl).2 rfl

/-- A fixture environment in which the per-repository fetches and the
geoapi fetch succeed, while repositories.json and meta.json are
unreachable. -/
def envUp : ScrapeEnv :=
  ⟨.error (.FetchError "connection refused"),
   .error (.FetchError "connection refused"),
   fun _ => .ok ⟨⟨none⟩, ⟨none⟩⟩,
   fun _ => .ok ⟨⟨""⟩, 0, false, ⟨""⟩, ⟨""⟩, false, ⟨""⟩, 0, 0, 0,
     "repo", ⟨""⟩, ⟨""⟩, "", ""⟩,
   fun _ => .ok "0,1,2",
   fun _ => .error "unexpected character"⟩

/-- Claim C5: with an explicit S3 backend no self-description fetch is
attempted (the outcome is independent of what that fetch would return); an
empty forced-minus-ignored set fails outright with the
empty-repository-list cause, and a non-empty one yields `Populated` when
every forced repository fetch succeeds. -/
theorem claim_c5 (srv : Server) (env : ScrapeEnv) (forced ign : List String)
    (only : Bool) (geo : Option (List Hostname)) (hb : srv.backend_type = .S3) :
    (∀ rj, srv.scrape { env with reposJson := rj } forced ign only geo =
      srv.scrape env forced ign only geo) ∧
    (forced.filter (fun r => decide (r ∉ ign)) = [] →
      srv.scrape env forced ign only geo =
        .Failed (srv.to_failed_server
          (.ScrapeError (.EmptyRepositoryList srv.hostname.str)))) ∧
    (forced.filter (fun r => decide (r ∉ ign)) ≠ [] →
      (∀ name ∈ srv.resolved_repos env forced ign only,
        ∃ pr, (RepositoryOrReplica.mk srv name).scrape env = .ok pr) →
      ∃ p, srv.scrape env forced ign only geo = .Populated p) := by
  refine ⟨?_, ?_, ?_⟩
  · intro rj
    simp only [Server.scrape,
      backend_stage_s3_reposJson_irrelevant srv env rj forced ign only hb,
      scrapeRepos_reposJson_irrelevant, fetch_geoapi_reposJson_irrelevant]
  · intro hnil
    have hemp : (btreeFromList (forced.filter (fun r => decide (r ∉ ign)))).isEmpty = true := by
      rw [hnil]
      rfl
    have hstage : srv.backend_stage env forced ign only =
        .error (.ScrapeError (.EmptyRepositoryList srv.hostname.str)) := by
      simp only [Server.backend_stage, hb]
      rw [if_pos hemp]
    simp only [Server.scrape, hstage]
  · intro hne hall
    have hne2 : btreeFromList (forced.filter (fun r => decide (r ∉ ign))) ≠ [] :=
      fun hh => hne ((btreeFromList_eq_nil _).mp hh)
    have hstage : srv.backend_stage env forced ign only =
        .ok (btreeFromList (forced.filter (fun r => decide (r ∉ ign))), .S3,
          ⟨none, none, ⟨none⟩, none, none, none⟩) := by
      simp only [Server.backend_stage, hb]
      rw [if_neg (fun hemp => hne2 (List.isEmpty_iff.mp hemp))]
    have hr : srv.resolved_repos env forced ign only =
        btreeFromList (forced.filter (fun r => decide (r ∉ ign))) := by
      simp only [Server.resolved_repos, hb]
    rw [hr] at hall
    obtain ⟨prs, hprs⟩ := scrapeRepos_ok_of_forall srv env _ hall
    simp only [Server.scrape, hstage, hprs]
    cases prs with
    | nil => exact ⟨_, rfl⟩
    | cons p0 rest =>
      by_cases hst : srv.server_type = .Stratum0
      · simp only [if_neg (not_not_intro hst)]
        exact ⟨_, rfl⟩
      · simp only [if_pos hst, Server.fetch_geoapi]
        exact ⟨_, rfl⟩

theorem claim_c5_witness :
    (Server.scrape ⟨.Stratum1, .S3, ⟨"example.org"⟩⟩ envUp
        ["a.repo"] ["a.repo"] false none =
      .Failed (Server.to_failed_server ⟨.Stratum1, .S3, ⟨"example.org"⟩⟩
        (.ScrapeError (.EmptyRepositoryList "example.org")))) ∧
    (∃ p, Server.scrape ⟨.Stratum1, .S3, ⟨"example.org"⟩⟩ envUp
        ["a.repo"] [] false none = .Populated p) := by
  constructor
  · exact (claim_c5 ⟨.Stratum1, .S3, ⟨"example.org"⟩⟩ envUp
      ["a.repo"] ["a.repo"] false none rfl).2.1 (by decide)
  · refine (claim_c5 ⟨.Stratum1, .S3, ⟨"example.org"⟩⟩ envUp
      ["a.repo"] [] false none rfl).2.2 (by decide) ?_
    intro name hmem
    have hres : Server.resolved_repos ⟨.Stratum1, .S3, ⟨"example.org"⟩⟩ envUp
        ["a.repo"] [] false = ["a.repo"] := by decide
    rw [hres] at hmem
    rcases List.mem_singleton.mp hmem with rfl
    exact ⟨_, rfl⟩

end CvmfsScraper
